import Mathlib

/-!
Verification of the natural-language specification of the NL-to-SQL RAG service
(`main.py`, `metadata_extractor.py`) against a shallow embedding of its code.

Conventions of the embedding:
* Python exceptions are modelled with `Except String`; a caught exception is a
  `match` on the `Except` value.
* SQL result sets are modelled as the lists of row values the statements in
  `metadata_extractor.py` would return (`TableColumnRow`, `ViewRow`); the live
  database connection is the pair of outcomes of the two statements.
* Python's `str.strip()` is `py_strip`, `sep.join(xs)` is `py_join`, and
  `s.split(sep)` is `py_split` (fuel-based, fuel bounded by the length of the
  string, so every definition is executable and kernel-reducible).
-/

namespace Rag

/-- Whitespace test used by the embedding of Python's `str.strip`. -/
def ws (c : Char) : Bool := c.isWhitespace

/-- Right strip on character lists: drop all trailing whitespace. -/
def rstrip (l : List Char) : List Char := (l.reverse.dropWhile ws).reverse

/-- Embedding of Python's `str.strip()`: drop leading and trailing whitespace. -/
def py_strip (s : String) : String := String.mk (rstrip (s.data.dropWhile ws))

/-- Embedding of Python's `sep.join(xs)`. -/
def py_join (sep : String) : List String → String
  | [] => ""
  | [x] => x
  | x :: y :: t => x ++ sep ++ py_join sep (y :: t)

/-- Worker for `py_split`; `fuel` strictly exceeds the length of the remaining
input so the fuel case is never reached for the fuel `py_split` supplies. -/
def py_split_fuel (sep : List Char) : Nat → List Char → List Char → List (List Char)
  | 0, l, cur => [cur.reverse ++ l]
  | fuel + 1, l, cur =>
    match l with
    | [] => [cur.reverse]
    | a :: t =>
      if sep.isPrefixOf (a :: t) then
        cur.reverse :: py_split_fuel sep fuel (List.drop sep.length (a :: t)) []
      else
        py_split_fuel sep fuel t (a :: cur)

/-- Embedding of Python's `s.split(sep)` for non-empty `sep` (the only use in
the source); Python raises on an empty separator, the source never passes one. -/
def py_split (s sep : String) : List String :=
  (py_split_fuel sep.data (s.data.length + 1) s.data []).map String.mk

/-! ## Data model: metadata_extractor.py -/

/-- One row of the table/column statement in `extract_metadata`
(`metadata_extractor.py` lines 28-44): `(table_schema, table_name, column_name,
data_type, column_comment, table_comment)`, already ordered by
`(table_schema, table_name, ordinal_position)` by the SQL `ORDER BY`. -/
structure TableColumnRow where
  table_schema : String
  table_name : String
  column_name : String
  data_type : String
  column_comment : String
  table_comment : String
deriving DecidableEq

/-- One row of the view statement (`metadata_extractor.py` lines 47-57). -/
structure ViewRow where
  view_schema : String
  view_name : String
  view_definition : String
  view_comment : String
deriving DecidableEq

/-- A LangChain `Document` as produced by this program: `page_content` plus the
metadata keys the source writes (`source_type`, `table_name`/`view_name`
modelled as `object_name`, `schema_name`; absent keys are `none`). -/
structure Document where
  page_content : String
  source_type : String
  object_name : Option String
  schema_name : Option String
deriving DecidableEq

/-- One entry of the Python dict `tables_data` (`metadata_extractor.py`
lines 63-78). -/
structure TableData where
  schema : String
  name : String
  comment : String
  columns : List (String × String × String)
deriving DecidableEq

/-- The grouping key `f"{schema}.{table}"` of `extract_metadata` line 66. -/
def row_key (r : TableColumnRow) : String := r.table_schema ++ "." ++ r.table_name

/-- Insert one row into the `tables_data` association list, preserving Python's
dict insertion order (`metadata_extractor.py` lines 64-78). -/
def add_table_row (acc : List (String × TableData)) (r : TableColumnRow) :
    List (String × TableData) :=
  let col : String × String × String := (r.column_name, r.data_type, r.column_comment)
  if acc.any (fun p => p.1 == row_key r) then
    acc.map (fun p =>
      if p.1 == row_key r then
        (p.1, ⟨p.2.schema, p.2.name, p.2.comment, p.2.columns ++ [col]⟩)
      else p)
  else
    acc ++ [(row_key r, ⟨r.table_schema, r.table_name, r.table_comment, [col]⟩)]

/-- The dict `tables_data` after all rows are processed. -/
def tables_data (rows : List TableColumnRow) : List (String × TableData) :=
  rows.foldl add_table_row []

/-- One column bullet `  - name (type)[: comment]\n`
(`metadata_extractor.py` lines 85-89). -/
def col_bullet (col : String × String × String) : String :=
  "  - " ++ col.1 ++ " (" ++ col.2.1 ++ ")"
    ++ (if col.2.2 = "" then "" else ": " ++ col.2.2) ++ "\n"

/-- The part of a table document after `"Table: {name} (Schema: {schema}"`:
closing paren, optional comment line, column header and bullets. -/
def table_rest (t : TableData) : String :=
  ")\n" ++ ((if t.comment = "" then "" else "Comment: " ++ t.comment ++ "\n")
    ++ ("Columns:\n" ++ String.join (t.columns.map col_bullet)))

/-- `table_doc_content.strip()` for one table (`metadata_extractor.py`
lines 80-90); the concatenation is written right-nested, which is the same
string Python builds by successive `+=`. -/
def table_doc_content (t : TableData) : String :=
  py_strip ("Table: " ++ (t.name ++ (" (Schema: " ++ (t.schema ++ table_rest t))))

/-- The `Document` appended for one table (`metadata_extractor.py` line 90). -/
def table_document (t : TableData) : Document :=
  ⟨table_doc_content t, "table", some t.name, some t.schema⟩

/-- All table documents, in dict order. -/
def build_table_docs (rows : List TableColumnRow) : List Document :=
  (tables_data rows).map (fun p => table_document p.2)

/-- The part of a view document after `"View: {name} (Schema: {schema}"`. -/
def view_rest (r : ViewRow) : String :=
  ")\n" ++ ((if r.view_comment = "" then "" else "Comment: " ++ r.view_comment ++ "\n")
    ++ ("Definition:\n" ++ (r.view_definition ++ "\n")))

/-- `view_doc_content.strip()` for one view (`metadata_extractor.py`
lines 101-109). -/
def view_doc_content (r : ViewRow) : String :=
  py_strip ("View: " ++ (r.view_name ++ (" (Schema: " ++ (r.view_schema ++ view_rest r))))

/-- The `Document` appended for one view (`metadata_extractor.py` line 109). -/
def view_document (r : ViewRow) : Document :=
  ⟨view_doc_content r, "view", some r.view_name, some r.view_schema⟩

/-- All view documents, in row order. -/
def build_view_docs (vrows : List ViewRow) : List Document :=
  vrows.map view_document

/-- The database connection obtained by `engine.connect()` in
`extract_metadata`: the outcomes of executing the two SQL statements on it.
`Except.error` is a raised exception of `connection.execute`. -/
structure Connection where
  table_rows : Except String (List TableColumnRow)
  view_rows : Except String (List ViewRow)

/-- `extract_metadata(engine)` (`metadata_extractor.py` lines 19-119).
The argument is the outcome of `engine.connect()`: if connecting raises, the
exception propagates; once connected, each of the two statement blocks catches
its own exception (lines 61-94 and 98-114) and contributes no documents. -/
def extract_metadata (conn : Except String Connection) : Except String (List Document) :=
  match conn with
  | Except.error e => Except.error e
  | Except.ok c =>
    Except.ok
      ((match c.table_rows with
        | Except.error _ => []
        | Except.ok rows => build_table_docs rows)
        ++
        (match c.view_rows with
        | Except.error _ => []
        | Except.ok vrows => build_view_docs vrows))

/-- `load_schema_documents()` (`metadata_extractor.py` lines 121-143): a test
connection (`with engine.connect()`), then `extract_metadata`; ANY exception in
the `try` block is caught and an empty list returned (line 140-143).
`test_conn` is the outcome of the test connection, `extract_conn` the outcome
of the connection `extract_metadata` opens. -/
def load_schema_documents (test_conn : Except String Unit)
    (extract_conn : Except String Connection) : List Document :=
  match test_conn with
  | Except.error _ => []
  | Except.ok _ =>
    match extract_metadata extract_conn with
    | Except.error _ => []
    | Except.ok docs => docs

/-! ## main.py: startup retry loop and placeholder policy -/

/-- The dummy document substituted when extraction yields zero documents
(`main.py` line 98). -/
def placeholder_doc : Document :=
  ⟨"No schema information available.", "placeholder", none, none⟩

/-- `max_retries` (`main.py` line 89). -/
def max_retries : Nat := 5

/-- `retry_delay` in seconds (`main.py` line 90). -/
def retry_delay : Nat := 10

/-- The outcomes of the fallible operations of one iteration of the startup
retry loop (`main.py` lines 91-144): the two connections
`load_schema_documents` makes, the `Chroma(...)` construction, and
`add_documents`. -/
structure Attempt where
  test_conn : Except String Unit
  extract_conn : Except String Connection
  chroma_init : Except String Unit
  add_docs_result : Except String Unit

/-- The document list passed to `add_documents` on one attempt: the extracted
documents, or the placeholder when the list is empty (`main.py` lines 94-98). -/
def attempt_docs (a : Attempt) : List Document :=
  if (load_schema_documents a.test_conn a.extract_conn).isEmpty then [placeholder_doc]
  else load_schema_documents a.test_conn a.extract_conn

/-- One iteration of the `try` block of the startup loop (`main.py`
lines 92-136): load documents (never raises), construct the Chroma client,
add the documents; the first raised exception propagates to the `except`. -/
def run_attempt (a : Attempt) : Except String (List Document) :=
  match a.chroma_init with
  | Except.error e => Except.error e
  | Except.ok _ =>
    match a.add_docs_result with
    | Except.error e => Except.error e
    | Except.ok _ => Except.ok (attempt_docs a)

/-- The `for attempt in range(max_retries)` loop (`main.py` lines 91-144),
with `fuel` the number of remaining iterations; returns the outcome and the
total seconds slept (`time.sleep(retry_delay)` runs after every failed attempt
except the last, line 139-144). The fuel-0 case is unreachable from
`schema_startup`. -/
def init_attempts (f : Nat → Attempt) : Nat → Nat → Except String (List Document) × Nat
  | _, 0 => (Except.error "loop finished", 0)
  | i, fuel + 1 =>
    match run_attempt (f i) with
    | Except.ok docs => (Except.ok docs, 0)
    | Except.error e =>
      if fuel = 0 then (Except.error e, 0)
      else
        let r := init_attempts f (i + 1) fuel
        (r.1, retry_delay + r.2)

/-- The whole extraction-and-index startup step: 5 attempts starting at
attempt 0. An `Except.error` outcome is the exception that propagates out of
`initialize_rag_components` and aborts startup (the lifespan re-raises it,
`main.py` lines 184-194), so the process does not become ready. -/
def schema_startup (f : Nat → Attempt) : Except String (List Document) × Nat :=
  init_attempts f 0 max_retries

/-! ## main.py: health check -/

/-- Truthiness of the six global components plus `db_engine.engine` and the
`isinstance(vectorstore, Chroma)` test, as read by `health_check`
(`main.py` lines 206-249). -/
structure Components where
  llm : Bool
  embeddings_model : Bool
  db_engine : Bool
  db_engine_engine : Bool
  vectorstore : Bool
  vectorstore_is_chroma : Bool
  qa_chain : Bool
  sql_agent_executor : Bool

/-- Bool test for a successful `Except` outcome. -/
def exc_isOk : Except String Unit → Bool
  | Except.ok _ => true
  | Except.error _ => false

/-- The body of the `try` of the database probe (`main.py` lines 220-221):
first `db_engine.engine.connect()` (raises when the database is unreachable),
then `connection.execute(text("SELECT 1"))`. `main.py` never imports
sqlalchemy's `text`, so evaluating `text("SELECT 1")` raises
`NameError: name 'text' is not defined` on every reachable database; the probe
can never succeed. -/
def db_probe (connect_ok : Bool) : Except String Unit :=
  if connect_ok then Except.error "NameError: name 'text' is not defined"
  else Except.error "OperationalError: could not connect"

/-- The `status` field computed by `health_check` (`main.py` lines 243-249):
start from `"ok"`; if not all of the six components, `db_ok` and `chroma_ok`
hold, downgrade to `"degraded"`; inside that branch, if no component is
initialized, downgrade to `"error"`. -/
def health_status (c : Components) (db_connect_ok : Bool)
    (heartbeat : Except String Unit) : String :=
  if c.llm && c.embeddings_model && c.db_engine && c.vectorstore && c.qa_chain
      && c.sql_agent_executor
      && (c.db_engine && c.db_engine_engine && exc_isOk (db_probe db_connect_ok))
      && (c.vectorstore && c.vectorstore_is_chroma && exc_isOk heartbeat) then "ok"
  else if c.llm || c.embeddings_model || c.db_engine || c.vectorstore || c.qa_chain
      || c.sql_agent_executor then "degraded"
  else "error"

/-! ## main.py: query endpoint -/

/-- One agent action of `intermediate_steps` (`step[0]` in `main.py`
lines 314-328): the `hasattr` flags plus the attribute values read there. -/
structure AgentStep where
  has_tool : Bool
  tool : String
  tool_input : String
  has_log : Bool
  log : String
deriving DecidableEq

/-- The dict returned by `sql_agent_executor.ainvoke` (`main.py` line 307):
presence/value of the keys read by the handler (`intermediate_steps`,
`output`); `none` is an absent key. -/
structure AgentResponse where
  intermediate_steps : Option (List AgentStep)
  output : Option String

/-- The sentinel initial value of `generated_sql` (`main.py` line 312). -/
def sql_sentinel : String := "SQL query not explicitly extracted from agent steps."

/-- Substring test on character lists (Python's `in` on `str`). -/
def has_sublist (pat : List Char) : List Char → Bool
  | [] => pat.isEmpty
  | a :: t => pat.isPrefixOf (a :: t) || has_sublist pat t

/-- Python's `pat in s` for strings. -/
def contains_sub (s pat : String) : Bool := has_sublist pat.data s.data

/-- The literal scanned for in the free-text log (`main.py` line 323). -/
def invoking_pat : String := "Invoking \"sql_db_query\""

/-- The second literal checked and split on (`main.py` lines 323-325). -/
def with_tick : String := "with `"

/-- The backtick character. -/
def backquote : Char := Char.ofNat 96

/-- `log_entry.split("with `")[1].split("`")[0]` (`main.py` line 325): the text
between the first occurrence of ``with ` `` and the next backtick. -/
def parse_log_sql (log : String) : String :=
  (((py_split log with_tick).getD 1 "").data.takeWhile (fun c => c != backquote)).asString

/-- The scan of `intermediate_steps` (`main.py` lines 313-328): for each step
in order, a structured tool field equal to `sql_db_query` yields `tool_input`;
otherwise a log containing both `Invoking "sql_db_query"` and ``with ` ``
yields the backtick-delimited text after the first ``with ` ``; the first
matching step wins, else the sentinel stands. -/
def extract_sql : List AgentStep → String
  | [] => sql_sentinel
  | step :: rest =>
    if step.has_tool && (step.tool == "sql_db_query") then step.tool_input
    else if step.has_log && contains_sub step.log invoking_pat
        && contains_sub step.log with_tick then
      parse_log_sql step.log
    else extract_sql rest

/-- A second definition that follows the words of the specification of the SQL
extraction (spec section 4.4), for comparison with `extract_sql`: the log
fallback applies only "if no structured tool-call field is present", and the
log is scanned for the adjacent pattern ``Invoking "sql_db_query" with `SQL` ``.
-/
def extract_sql_spec : List AgentStep → String
  | [] => sql_sentinel
  | step :: rest =>
    if step.has_tool && (step.tool == "sql_db_query") then step.tool_input
    else if !step.has_tool && step.has_log
        && contains_sub step.log (invoking_pat ++ (" " ++ with_tick)) then
      (((py_split step.log (invoking_pat ++ (" " ++ with_tick))).getD 1
        "").data.takeWhile (fun c => c != backquote)).asString
    else extract_sql_spec rest

/-- The response model `QueryResponse` (`main.py` lines 35-40); `result` has
type `Any` in the source and is modelled as the string answer it is assigned. -/
structure QueryResponse where
  natural_language_query : String
  sql_query : Option String
  result : Option String
  context_from_vector_db : Option String
  error : Option String
deriving DecidableEq

/-- The initial value of `context_docs_str` (`main.py` line 263). -/
def no_context : String := "No context retrieved."

/-- The value of `context_docs_str` after step 1 of `handle_query` (`main.py`
lines 263-282): on a raised retrieval exception, the error-embedding string;
on success, the joined `source_documents` contents, or the initial sentinel
when the list is empty. -/
def compute_context (retrieval : Except String (List Document)) : String :=
  match retrieval with
  | Except.error e => "Error retrieving context: " ++ (e ++ ". Proceeding without schema context.")
  | Except.ok docs =>
    if docs.isEmpty then no_context
    else py_join "\n---\n" (docs.map Document.page_content)

/-- `handle_query` (`main.py` lines 252-347). Inputs: the truthiness of the
three readiness globals (line 256), the outcome of the retrieval step
(`qa_chain.ainvoke`, giving `source_documents` or a raised exception), the
outcome of `sql_agent_executor.ainvoke`, and the query string.
`Except.error 503` is the raised `HTTPException(status_code=503)`. -/
def handle_query (qa_chain_ready sql_agent_ready llm_ready : Bool)
    (retrieval : Except String (List Document))
    (agent : Except String AgentResponse) (q : String) : Except Nat QueryResponse :=
  if !qa_chain_ready || !sql_agent_ready || !llm_ready then Except.error 503
  else
    let ctx := compute_context retrieval
    match agent with
    | Except.error e =>
      Except.ok ⟨q, none, none, some ctx, some ("Error in SQL agent: " ++ e)⟩
    | Except.ok resp =>
      let generated_sql :=
        match resp.intermediate_steps with
        | none => sql_sentinel
        | some steps => extract_sql steps
      Except.ok ⟨q, some generated_sql,
        some (resp.output.getD "No output from SQL agent."), some ctx, none⟩

/-! ## Vector store retrieval model -/

/-- An entry of the vector index with its similarity score for the current
query (higher = more similar), scores modelled as integers. -/
structure IndexedEntry where
  doc : Document
  similarity : Int

/-- Modelled from the spec: the vector-storage service's nearest-neighbor
`query(text, k)` is not part of this repository (it lives in the Chroma
service and the LangChain retriever); per spec section 4.2 it "returns the k
closest by similarity (higher = more similar)". Descending-similarity order. -/
def sim_ge (a b : IndexedEntry) : Prop := b.similarity ≤ a.similarity

instance : DecidableRel sim_ge :=
  fun a b => inferInstanceAs (Decidable (b.similarity ≤ a.similarity))

instance : IsTotal IndexedEntry sim_ge :=
  ⟨fun a b => Int.le_total b.similarity a.similarity⟩

instance : IsTrans IndexedEntry sim_ge :=
  ⟨fun _ _ _ h1 h2 => le_trans h2 h1⟩

/-- Modelled from the spec: rank all entries by descending similarity and
return the `k` best. -/
def vector_query (entries : List IndexedEntry) (k : Nat) : List IndexedEntry :=
  (List.insertionSort sim_ge entries).take k

/-- The retriever's fixed `k` (`main.py` line 149: `search_kwargs={"k": 3}`).
-/
def retriever_k : Nat := 3

/-- The documents the retriever hands to `handle_query` as
`source_documents`: a `vector_query` with the configured `k`. -/
def retrieve_docs (entries : List IndexedEntry) : List Document :=
  (vector_query entries retriever_k).map IndexedEntry.doc

/-! ## Helper lemmas about strip/join and lists -/

theorem dropWhile_cons_pos {p : Char → Bool} {a : Char} {l : List Char} (h : p a = true) :
    (a :: l).dropWhile p = l.dropWhile p := by
  simp [List.dropWhile, h]

theorem dropWhile_cons_neg {p : Char → Bool} {a : Char} {l : List Char} (h : p a = false) :
    (a :: l).dropWhile p = a :: l := by
  simp [List.dropWhile, h]

theorem mem_dropWhile_of_mem {p : Char → Bool} {c : Char} {l : List Char}
    (hc : c ∈ l) (hpc : p c = false) : c ∈ l.dropWhile p := by
  induction l with
  | nil => cases hc
  | cons a t ih =>
    cases hc with
    | head => rw [dropWhile_cons_neg hpc]; exact List.mem_cons_self _ _
    | tail _ ht =>
      cases hpa : p a with
      | true => rw [dropWhile_cons_pos hpa]; exact ih ht
      | false => rw [dropWhile_cons_neg hpa]; exact List.mem_cons_of_mem _ ht

theorem dropWhile_ne_nil_of_mem {p : Char → Bool} {c : Char} {l : List Char}
    (hc : c ∈ l) (hpc : p c = false) : l.dropWhile p ≠ [] := by
  intro h
  have := mem_dropWhile_of_mem hc hpc
  rw [h] at this
  cases this

theorem dropWhile_append_of_ne_nil {p : Char → Bool} {l₁ l₂ : List Char}
    (h : l₁.dropWhile p ≠ []) : (l₁ ++ l₂).dropWhile p = l₁.dropWhile p ++ l₂ := by
  induction l₁ with
  | nil => exact absurd rfl h
  | cons a t ih =>
    cases hpa : p a with
    | true =>
      rw [dropWhile_cons_pos hpa] at h
      rw [List.cons_append, dropWhile_cons_pos hpa, dropWhile_cons_pos hpa, ih h]
    | false =>
      rw [List.cons_append, dropWhile_cons_neg hpa, dropWhile_cons_neg hpa, List.cons_append]

theorem rstrip_append {l₁ l₂ : List Char} {c : Char} (hc : c ∈ l₂) (hw : ws c = false) :
    rstrip (l₁ ++ l₂) = l₁ ++ rstrip l₂ := by
  unfold rstrip
  rw [List.reverse_append,
    dropWhile_append_of_ne_nil (dropWhile_ne_nil_of_mem (List.mem_reverse.mpr hc) hw),
    List.reverse_append, List.reverse_reverse]

theorem str_data_append (a b : String) : (a ++ b).data = a.data ++ b.data := by
  cases a
  cases b
  rfl

/-- If a string is `p ++ m ++ q` with a non-whitespace character `u` somewhere
in `p` and a non-whitespace character `v` somewhere in `q`, then stripping
keeps `m` intact as an infix. -/
theorem strip_keeps_middle (s m : String) (pd qd : List Char) (u v : Char)
    (hs : s.data = pd ++ (m.data ++ qd))
    (hu : u ∈ pd) (huw : ws u = false)
    (hv : v ∈ qd) (hvw : ws v = false) :
    m.data <:+: (py_strip s).data := by
  unfold py_strip
  rw [hs]
  rw [dropWhile_append_of_ne_nil (dropWhile_ne_nil_of_mem hu huw)]
  show m.data <:+: rstrip (pd.dropWhile ws ++ (m.data ++ qd))
  rw [show pd.dropWhile ws ++ (m.data ++ qd) = (pd.dropWhile ws ++ m.data) ++ qd by
    rw [List.append_assoc]]
  rw [rstrip_append hv hvw]
  exact ⟨pd.dropWhile ws, rstrip qd, by rw [List.append_assoc]⟩

theorem py_strip_ne_empty {s : String} {c : Char} (hc : c ∈ s.data) (hw : ws c = false) :
    py_strip s ≠ "" := by
  unfold py_strip
  intro h
  have hdata : rstrip (s.data.dropWhile ws) = [] := congrArg String.data h
  unfold rstrip at hdata
  have h2 : (s.data.dropWhile ws).reverse.dropWhile ws = [] := by
    have := congrArg List.reverse hdata
    rwa [List.reverse_reverse, List.reverse_nil] at this
  exact dropWhile_ne_nil_of_mem (List.mem_reverse.mpr (mem_dropWhile_of_mem hc hw)) hw h2

theorem py_join_ne_empty {sep : String} {l : List String}
    (hsep : sep.data ≠ []) (hl : l ≠ []) (hne : ∀ x ∈ l, x ≠ "") :
    py_join sep l ≠ "" := by
  match l with
  | [] => exact absurd rfl hl
  | [x] => exact hne x (List.mem_singleton.mpr rfl)
  | x :: y :: t =>
    show x ++ sep ++ py_join sep (y :: t) ≠ ""
    intro h
    have hdata : (x ++ sep ++ py_join sep (y :: t)).data = [] := congrArg String.data h
    rw [str_data_append, str_data_append] at hdata
    rcases List.append_eq_nil.mp hdata with ⟨h1, _⟩
    rcases List.append_eq_nil.mp h1 with ⟨_, h3⟩
    exact hsep h3

/-- Sanity checks of the executable embedding on concrete data. -/
example : py_strip "  a b \n" = "a b" := by decide

example : py_split "a with `SELECT 1` b" "with `" = ["a ", "SELECT 1` b"] := by decide

example : parse_log_sql "Invoking \"sql_db_query\" with `SELECT 1`" = "SELECT 1" := by decide

example : py_join "\n---\n" ["a", "b"] = "a\n---\nb" := by decide

example :
    table_doc_content ⟨"public", "users", "", [("id", "integer", "")]⟩
      = "Table: users (Schema: public)\nColumns:\n  - id (integer)" := by decide

/-! ## Claim C1 -/

/-- The response produced by a completed request with successful empty
retrieval and an agent response carrying no keys. -/
def sample_response : QueryResponse :=
  ⟨"q", some sql_sentinel, some "No output from SQL agent.", some no_context, none⟩

/-- Claim C1: for every completed POST /query request (one that is not
rejected as service-unavailable), exactly one of the response's result field
and its error field is populated (non-null), and the other is null. -/
theorem handle_query_result_error_exclusive
    (a b c : Bool) (retrieval : Except String (List Document))
    (agent : Except String AgentResponse) (q : String) (resp : QueryResponse)
    (h : handle_query a b c retrieval agent q = Except.ok resp) :
    ((∃ ans, resp.result = some ans) ∧ resp.error = none) ∨
    (resp.result = none ∧ ∃ e, resp.error = some e) := by
  unfold handle_query at h
  split at h
  · cases h
  · cases agent with
    | error e =>
      injection h with h
      subst h
      exact Or.inr ⟨rfl, _, rfl⟩
    | ok r =>
      injection h with h
      subst h
      exact Or.inl ⟨⟨_, rfl⟩, rfl⟩

/-- Witness for C1: a concrete completed request. -/
theorem handle_query_result_error_exclusive_app :
    ((∃ ans, sample_response.result = some ans) ∧ sample_response.error = none) ∨
    (sample_response.result = none ∧ ∃ e, sample_response.error = some e) :=
  handle_query_result_error_exclusive true true true (Except.ok [])
    (Except.ok ⟨none, none⟩) "q" sample_response rfl

/-! ## Claim C2 -/

/-- Claim C2: schema extraction fails with an error only when the database
connection itself cannot be established; when the connection succeeds, a
failure of the table/column query or of the view query is caught
independently, contributes zero documents, and does not abort the extraction
of the other kind (partial success is a valid result). -/
theorem extract_metadata_independent_failures (e : String)
    (rows : List TableColumnRow) (vrows : List ViewRow) (c : Connection) :
    extract_metadata (Except.error e) = Except.error e ∧
    (∃ docs, extract_metadata (Except.ok c) = Except.ok docs) ∧
    extract_metadata (Except.ok ⟨Except.error e, Except.ok vrows⟩)
      = Except.ok (build_view_docs vrows) ∧
    extract_metadata (Except.ok ⟨Except.ok rows, Except.error e⟩)
      = Except.ok (build_table_docs rows) := by
  refine ⟨rfl, ?_, rfl, ?_⟩
  · exact ⟨_, rfl⟩
  · simp [extract_metadata]

/-! ## Claim C3 (code bug) -/

/-- All eight truthiness flags of `health_check` set: every component
constructed, `db_engine.engine` present, `vectorstore` a Chroma instance. -/
def all_components : Components := ⟨true, true, true, true, true, true, true, true⟩

/-- Claim C3 (refuted; code bug): the claim says that with the DB reachable,
the vector store reachable and all components constructed, GET /health
returns status "ok". In the code the SELECT 1 probe always raises
`NameError` because `main.py` does not import `text`, so `db_ok` is always
false and the endpoint can never report "ok"; at the claim's input it reports
"degraded". -/
theorem health_status_never_ok :
    (∀ (c : Components) (ok : Bool) (hb : Except String Unit),
      health_status c ok hb ≠ "ok") ∧
    health_status all_components true (Except.ok ()) = "degraded" := by
  constructor
  · intro c ok hb
    have hdb : exc_isOk (db_probe ok) = false := by cases ok <;> rfl
    simp only [health_status, hdb, Bool.and_false, Bool.false_and,
      Bool.false_eq_true, if_false]
    split <;> decide
  · rfl

/-! ## Claim C4 -/

/-- An attempt on which both database connections raise. -/
def down_attempt (e : String) : Attempt :=
  ⟨Except.error e, Except.error e, Except.ok (), Except.ok ()⟩

/-- Claim C4: if establishing the database connection (or any step of
metadata extraction) raises inside `load_schema_documents`, it returns an
empty list instead of propagating; the startup retry loop then sees no
failure, substitutes the placeholder, and the first attempt succeeds with
zero sleep even though the database was unreachable. -/
theorem load_schema_documents_swallows_errors (e : String)
    (c2 : Except String Connection) :
    load_schema_documents (Except.error e) c2 = [] ∧
    load_schema_documents (Except.ok ()) (Except.error e) = [] ∧
    run_attempt (down_attempt e) = Except.ok [placeholder_doc] ∧
    schema_startup (fun _ => down_attempt e) = (Except.ok [placeholder_doc], 0) :=
  ⟨rfl, rfl, rfl, rfl⟩

/-! ## Claim C6 -/

/-- Claim C6: if extraction yields zero documents, exactly one placeholder
document with canned non-empty content is substituted before the index is
built, so the index is never built on an empty document set. -/
theorem placeholder_substitution (a : Attempt) :
    (load_schema_documents a.test_conn a.extract_conn = [] →
      attempt_docs a = [placeholder_doc]) ∧
    attempt_docs a ≠ [] ∧
    placeholder_doc.page_content = "No schema information available." ∧
    placeholder_doc.page_content ≠ "" ∧
    placeholder_doc.source_type = "placeholder" ∧
    (run_attempt a = Except.ok (attempt_docs a) ∨
      ∃ e, run_attempt a = Except.error e) := by
  refine ⟨?_, ?_, rfl, by decide, rfl, ?_⟩
  · intro h
    unfold attempt_docs
    rw [h]
    rfl
  · unfold attempt_docs
    split
    · simp
    · next hne =>
      intro hnil
      rw [hnil] at hne
      exact hne rfl
  · unfold run_attempt
    obtain ⟨tc, ec, ci, ad⟩ := a
    cases ci with
    | error e => exact Or.inr ⟨e, rfl⟩
    | ok u =>
      cases ad with
      | error e => exact Or.inr ⟨e, rfl⟩
      | ok u2 => exact Or.inl rfl

/-- An attempt whose connections succeed but whose database has no
qualifying tables or views. -/
def empty_attempt : Attempt :=
  ⟨Except.ok (), Except.ok ⟨Except.ok [], Except.ok []⟩, Except.ok (), Except.ok ()⟩

/-- Witness for C6: zero extracted documents yield exactly the placeholder. -/
theorem placeholder_substitution_app :
    attempt_docs empty_attempt = [placeholder_doc] :=
  (placeholder_substitution empty_attempt).1 rfl

/-! ## Claim C5 -/

theorem init_attempts_ok {f : Nat → Attempt} {i fuel : Nat} {docs : List Document}
    (h : run_attempt (f i) = Except.ok docs) :
    init_attempts f i (fuel + 1) = (Except.ok docs, 0) := by
  unfold init_attempts
  rw [h]

theorem init_attempts_err {f : Nat → Attempt} {i fuel : Nat} {e : String}
    (h : run_attempt (f i) = Except.error e) (hf : fuel ≠ 0) :
    init_attempts f i (fuel + 1)
      = ((init_attempts f (i + 1) fuel).1, retry_delay + (init_attempts f (i + 1) fuel).2) := by
  cases fuel with
  | zero => exact absurd rfl hf
  | succ n =>
    unfold init_attempts
    rw [h]
    rfl

theorem init_attempts_last {f : Nat → Attempt} {i : Nat} {e : String}
    (h : run_attempt (f i) = Except.error e) :
    init_attempts f i 1 = (Except.error e, 0) := by
  unfold init_attempts
  rw [h]
  rfl

theorem init_attempts_all_fail (f : Nat → Attempt) (es : Nat → String) :
    ∀ fuel i, 0 < fuel →
      (∀ t, t < fuel → run_attempt (f (i + t)) = Except.error (es (i + t))) →
      init_attempts f i fuel
        = (Except.error (es (i + (fuel - 1))), retry_delay * (fuel - 1)) := by
  intro fuel
  induction fuel with
  | zero => intro i h; exact absurd h (by omega)
  | succ fuel ih =>
    intro i _ hfail
    have h0 : run_attempt (f i) = Except.error (es i) := by
      have := hfail 0 (Nat.succ_pos fuel)
      simpa using this
    cases fuel with
    | zero =>
      rw [init_attempts_last h0]
      simp
    | succ fuel2 =>
      rw [init_attempts_err h0 (Nat.succ_ne_zero _)]
      have ihh := ih (i + 1) (Nat.succ_pos _) (fun t ht => by
        have := hfail (t + 1) (by omega)
        rwa [show i + (t + 1) = i + 1 + t by omega] at this)
      rw [ihh]
      have e1 : i + 1 + (fuel2 + 1 - 1) = i + (fuel2 + 1 + 1 - 1) := by omega
      rw [e1]
      simp only [Prod.mk.injEq, retry_delay]
      exact ⟨trivial, by omega⟩

theorem init_attempts_first_ok (f : Nat → Attempt) (es : Nat → String)
    (docs : List Document) :
    ∀ j fuel i, j < fuel →
      (∀ t, t < j → run_attempt (f (i + t)) = Except.error (es (i + t))) →
      run_attempt (f (i + j)) = Except.ok docs →
      init_attempts f i fuel = (Except.ok docs, retry_delay * j) := by
  intro j
  induction j with
  | zero =>
    intro fuel i hj _ hok
    match fuel, hj with
    | fuel + 1, _ =>
      rw [init_attempts_ok (by simpa using hok)]
      simp
  | succ j ih =>
    intro fuel i hj hfail hok
    match fuel, hj with
    | fuel + 1, hj =>
      have h0 : run_attempt (f i) = Except.error (es i) := by
        simpa using hfail 0 (Nat.succ_pos _)
      rw [init_attempts_err h0 (by omega)]
      have ihh := ih fuel (i + 1) (by omega)
        (fun t ht => by
          have := hfail (t + 1) (by omega)
          rwa [show i + (t + 1) = i + 1 + t by omega] at this)
        (by rwa [show i + (j + 1) = i + 1 + j by omega] at hok)
      rw [ihh]
      simp only [Prod.mk.injEq, retry_delay]
      exact ⟨trivial, by omega⟩

/-- Claim C5: the startup extraction-then-index sequence is retried on any
exception, for at most `max_retries = 5` attempts with a fixed
`retry_delay = 10` second sleep between consecutive attempts (40 seconds of
sleeping when everything fails); if all 5 attempts fail, the last exception
propagates (an `Except.error` outcome, which aborts startup so the process
does not reach the ready state); an attempt that succeeds after `j` failures
stops the loop after `j` sleeps. -/
theorem startup_retry_bound (f : Nat → Attempt) (es : Nat → String) (j : Nat)
    (docs : List Document) :
    ((∀ i, i < max_retries → run_attempt (f i) = Except.error (es i)) →
      schema_startup f = (Except.error (es 4), 40)) ∧
    (j < max_retries →
      (∀ i, i < j → run_attempt (f i) = Except.error (es i)) →
      run_attempt (f j) = Except.ok docs →
      schema_startup f = (Except.ok docs, retry_delay * j)) := by
  constructor
  · intro hall
    have h := init_attempts_all_fail f es 5 0 (by omega)
      (fun t ht => by simpa using hall t (by simpa [max_retries] using ht))
    simpa [schema_startup, max_retries, retry_delay] using h
  · intro hj hfail hok
    have h := init_attempts_first_ok f es docs j 5 0 (by simpa [max_retries] using hj)
      (fun t ht => by simpa using hfail t ht) (by simpa using hok)
    simpa [schema_startup, max_retries] using h

/-- An attempt that raises while constructing the Chroma client. -/
def failing_attempt : Attempt :=
  ⟨Except.ok (), Except.ok ⟨Except.ok [], Except.ok []⟩,
    Except.error "chroma down", Except.ok ()⟩

/-- Witness for C5: five concrete failing attempts exhaust the retry bound
after 40 seconds of sleeping; a first concrete successful attempt finishes
immediately. -/
theorem startup_retry_bound_app :
    schema_startup (fun _ => failing_attempt) = (Except.error "chroma down", 40) ∧
    schema_startup (fun _ => empty_attempt) = (Except.ok [placeholder_doc], 0) :=
  ⟨(startup_retry_bound (fun _ => failing_attempt) (fun _ => "chroma down") 0 []).1
      (fun _ _ => rfl),
    (startup_retry_bound (fun _ => empty_attempt) (fun _ => "") 0 [placeholder_doc]).2
      (by decide) (fun i h => absurd h (Nat.not_lt_zero i)) rfl⟩

/-! ## Claim C8 -/

theorem table_doc_content_ne_empty (t : TableData) : table_doc_content t ≠ "" := by
  unfold table_doc_content
  refine py_strip_ne_empty (c := 'T') ?_ (by decide)
  rw [str_data_append]
  exact List.mem_append_left _ (by decide)

theorem view_doc_content_ne_empty (r : ViewRow) : view_doc_content r ≠ "" := by
  unfold view_doc_content
  refine py_strip_ne_empty (c := 'V') ?_ (by decide)
  rw [str_data_append]
  exact List.mem_append_left _ (by decide)

theorem load_docs_page_content_ne_empty (tc : Except String Unit)
    (ec : Except String Connection) :
    ∀ d ∈ load_schema_documents tc ec, d.page_content ≠ "" := by
  intro d hd
  unfold load_schema_documents at hd
  cases tc with
  | error e => cases hd
  | ok u =>
    cases ec with
    | error e => cases hd
    | ok c =>
      simp only [extract_metadata] at hd
      rcases List.mem_append.mp hd with hleft | hright
      · cases htq : c.table_rows with
        | error e => rw [htq] at hleft; cases hleft
        | ok rows =>
          rw [htq] at hleft
          obtain ⟨p, _, hp⟩ := List.mem_map.mp hleft
          rw [← hp]
          exact table_doc_content_ne_empty p.2
      · cases hvq : c.view_rows with
        | error e => rw [hvq] at hright; cases hright
        | ok vrows =>
          rw [hvq] at hright
          obtain ⟨r, _, hr⟩ := List.mem_map.mp hright
          rw [← hr]
          exact view_doc_content_ne_empty r

/-- Claim C8: the context string given to the SQL agent is never empty: when
retrieval returns zero documents it is the fixed sentinel, when retrieval
raises it is a string embedding the error message and the
proceeding-without-context note, the documents this program indexes all have
non-empty content (so a successful retrieval joins non-empty contents into a
non-empty string), and a retrieval failure never aborts the query request. -/
theorem context_never_empty (docs : List Document) (e q : String) (a : Attempt)
    (agent : Except String AgentResponse) :
    compute_context (Except.ok []) = no_context ∧
    no_context ≠ "" ∧
    ((∀ d ∈ docs, d.page_content ≠ "") → compute_context (Except.ok docs) ≠ "") ∧
    compute_context (Except.error e)
      = "Error retrieving context: " ++ (e ++ ". Proceeding without schema context.") ∧
    compute_context (Except.error e) ≠ "" ∧
    (∀ d ∈ attempt_docs a, d.page_content ≠ "") ∧
    (∃ r, handle_query true true true (Except.error e) agent q = Except.ok r) := by
  refine ⟨rfl, by decide, ?_, rfl, ?_, ?_, ?_⟩
  · intro hne
    cases docs with
    | nil => exact by decide
    | cons d t =>
      show py_join "\n---\n" ((d :: t).map Document.page_content) ≠ ""
      refine py_join_ne_empty (by decide) (by simp) ?_
      intro x hx
      obtain ⟨d2, hd2, hpc⟩ := List.mem_map.mp hx
      rw [← hpc]
      exact hne d2 hd2
  · intro h
    unfold compute_context at h
    have hdata := congrArg String.data h
    rw [str_data_append] at hdata
    rcases List.append_eq_nil.mp hdata with ⟨h1, _⟩
    have : 'E' ∈ ([] : List Char) := h1 ▸ (by decide : 'E' ∈ "Error retrieving context: ".data)
    cases this
  · intro d hd
    unfold attempt_docs at hd
    split at hd
    · rw [List.mem_singleton.mp hd]
      decide
    · exact load_docs_page_content_ne_empty a.test_conn a.extract_conn d hd
  · cases agent with
    | error ea => exact ⟨_, rfl⟩
    | ok r => exact ⟨_, rfl⟩

/-- Witness for C8: concrete discharges of the hypotheses of the
joined-context and indexed-document conjuncts. -/
theorem context_never_empty_app :
    compute_context (Except.ok [placeholder_doc]) ≠ "" ∧
    placeholder_doc.page_content ≠ "" :=
  ⟨(context_never_empty [placeholder_doc] "x" "q" empty_attempt
      (Except.ok ⟨none, none⟩)).2.2.1 (by decide),
    (context_never_empty [placeholder_doc] "x" "q" empty_attempt
      (Except.ok ⟨none, none⟩)).2.2.2.2.2.1 placeholder_doc (by decide)⟩

/-! ## Claim C9 -/

/-- Claim C9: context retrieval always queries the vector index with `k = 3`,
so at most 3 documents come back for any query and index size, ranked by
descending similarity, and their contents are concatenated with the fixed
separator `"\n---\n"`.  The nearest-neighbor query itself is modelled from the
spec (`vector_query`); the `k = 3` configuration and the join are from
`main.py` lines 149 and 273. -/
theorem retrieval_k_bound (entries : List IndexedEntry) (docs : List Document) :
    retriever_k = 3 ∧
    (retrieve_docs entries).length ≤ 3 ∧
    List.Sorted sim_ge (vector_query entries retriever_k) ∧
    (docs ≠ [] →
      compute_context (Except.ok docs)
        = py_join "\n---\n" (docs.map Document.page_content)) := by
  refine ⟨rfl, ?_, ?_, ?_⟩
  · unfold retrieve_docs vector_query
    rw [List.length_map]
    exact List.length_take_le _ _
  · exact List.Pairwise.sublist (List.take_sublist _ _)
      (List.sorted_insertionSort sim_ge entries)
  · intro h
    cases docs with
    | nil => exact absurd rfl h
    | cons d t => rfl

/-- Witness for C9: joining a concrete non-empty retrieval result. -/
theorem retrieval_k_bound_app :
    compute_context (Except.ok [placeholder_doc])
      = py_join "\n---\n" ([placeholder_doc].map Document.page_content) :=
  (retrieval_k_bound [] [placeholder_doc]).2.2.2 (by decide)

/-! ## Claim C10 (corrected) -/

/-- A step whose structured tool name is present but different from the SQL
execution tool, while its free-text log happens to contain the invocation
pattern. -/
def checker_step : AgentStep :=
  ⟨true, "sql_db_query_checker", "SELECT 2", true,
    "Invoking \"sql_db_query\" with `SELECT 1`"⟩

/-- Counterexample to claim C10 as stated: on a step that has a structured
tool field (`sql_db_query_checker`, not the SQL tool) the claim says the log
fallback does not apply ("when no structured tool-call field is present"), so
the sentinel would be reported; the code scans the log of every step and
reports the backtick-delimited text instead. -/
theorem sql_extraction_counterexample :
    extract_sql [checker_step] = "SELECT 1" ∧
    extract_sql_spec [checker_step] = sql_sentinel := by
  constructor
  · decide
  · decide

/-- Whether a step stops the scan of `extract_sql`. -/
def step_matches (s : AgentStep) : Bool :=
  (s.has_tool && (s.tool == "sql_db_query"))
    || (s.has_log && contains_sub s.log invoking_pat && contains_sub s.log with_tick)

theorem extract_sql_cons_skip {s : AgentStep} {l : List AgentStep}
    (h : step_matches s = false) : extract_sql (s :: l) = extract_sql l := by
  have h12 := Bool.or_eq_false_iff.mp h
  show (if s.has_tool && (s.tool == "sql_db_query") then s.tool_input
    else if s.has_log && contains_sub s.log invoking_pat
        && contains_sub s.log with_tick then parse_log_sql s.log
    else extract_sql l) = extract_sql l
  rw [h12.1, h12.2]
  rfl

/-- Claim C10 amended: scanning the steps in order, the first step that either
(i) carries a structured tool field equal to `sql_db_query` — yielding its
tool input — or (ii) carries a log containing both the substring
`Invoking "sql_db_query"` and the substring ``with ` `` (regardless of whether
a structured tool field is present, and without requiring the two to be
adjacent) — yielding the text between the first ``with ` `` and the next
backtick — determines the reported SQL; if no step matches, the fixed sentinel
is reported; and the extraction never prevents the agent's final answer from
being returned. -/
theorem sql_extraction_first_match (pre rest steps : List AgentStep)
    (step : AgentStep) (retrieval : Except String (List Document))
    (resp : AgentResponse) (q : String) :
    ((∀ s ∈ steps, step_matches s = false) → extract_sql steps = sql_sentinel) ∧
    ((∀ s ∈ pre, step_matches s = false) →
      step.has_tool = true → step.tool = "sql_db_query" →
      extract_sql (pre ++ step :: rest) = step.tool_input) ∧
    ((∀ s ∈ pre, step_matches s = false) →
      (step.has_tool && (step.tool == "sql_db_query")) = false →
      step.has_log = true →
      contains_sub step.log invoking_pat = true →
      contains_sub step.log with_tick = true →
      extract_sql (pre ++ step :: rest) = parse_log_sql step.log) ∧
    (∃ r, handle_query true true true retrieval (Except.ok resp) q = Except.ok r ∧
      r.result = some (resp.output.getD "No output from SQL agent.")) := by
  refine ⟨?_, ?_, ?_, ⟨_, rfl, rfl⟩⟩
  · intro hall
    induction steps with
    | nil => rfl
    | cons s t ih =>
      rw [extract_sql_cons_skip (hall s (List.mem_cons_self s t))]
      exact ih (fun s2 hs2 => hall s2 (List.mem_cons_of_mem s hs2))
  · intro hpre ht htool
    induction pre with
    | nil =>
      show (if step.has_tool && (step.tool == "sql_db_query") then step.tool_input
        else _) = step.tool_input
      rw [ht, htool]
      rfl
    | cons s t ih =>
      rw [List.cons_append, extract_sql_cons_skip (hpre s (List.mem_cons_self s t))]
      exact ih (fun s2 hs2 => hpre s2 (List.mem_cons_of_mem s hs2))
  · intro hpre hnotool hl hinv htick
    induction pre with
    | nil =>
      show (if step.has_tool && (step.tool == "sql_db_query") then step.tool_input
        else if step.has_log && contains_sub step.log invoking_pat
            && contains_sub step.log with_tick then parse_log_sql step.log
        else extract_sql rest) = parse_log_sql step.log
      rw [hnotool, hl, hinv, htick]
      rfl
    | cons s t ih =>
      rw [List.cons_append, extract_sql_cons_skip (hpre s (List.mem_cons_self s t))]
      exact ih (fun s2 hs2 => hpre s2 (List.mem_cons_of_mem s hs2))

/-- A step carrying a structured `sql_db_query` tool call. -/
def good_step : AgentStep := ⟨true, "sql_db_query", "SELECT 42", false, ""⟩

/-- Witness for C10 amended: concrete first-match and no-match scans. -/
theorem sql_extraction_first_match_app :
    extract_sql ([] ++ good_step :: []) = good_step.tool_input ∧
    extract_sql [] = sql_sentinel :=
  ⟨(sql_extraction_first_match [] [] [] good_step (Except.ok []) ⟨none, none⟩ "q").2.1
      (fun s hs => absurd hs (List.not_mem_nil s)) rfl rfl,
    (sql_extraction_first_match [] [] [] good_step (Except.ok []) ⟨none, none⟩ "q").1
      (fun s hs => absurd hs (List.not_mem_nil s))⟩

/-! ## Claim C7 (corrected) -/

/-- One fold step of collecting distinct grouping keys in first-occurrence
order. -/
def key_step (ks : List String) (r : TableColumnRow) : List String :=
  if row_key r ∈ ks then ks else ks ++ [row_key r]

/-- The distinct grouping keys of the rows, in first-occurrence order. -/
def distinct_keys (rows : List TableColumnRow) : List String :=
  rows.foldl key_step []

/-- One fold step of collecting distinct `(schema, table)` pairs in
first-occurrence order. -/
def pair_step (ps : List (String × String)) (r : TableColumnRow) :
    List (String × String) :=
  if (r.table_schema, r.table_name) ∈ ps then ps
  else ps ++ [(r.table_schema, r.table_name)]

/-- The distinct `(schema, table)` pairs of the rows. -/
def distinct_pairs (rows : List TableColumnRow) : List (String × String) :=
  rows.foldl pair_step []

/-- The number N of tables named by the rows: the number of distinct
`(schema, table)` pairs. -/
def num_tables (rows : List TableColumnRow) : Nat := (distinct_pairs rows).length

/-- Rows of two DISTINCT tables — `"a.b"."c"` and `"a"."b.c"` (legal quoted
Postgres identifiers) — whose concatenated grouping keys collide. -/
def colliding_rows : List TableColumnRow :=
  [⟨"a.b", "c", "x", "integer", "", ""⟩, ⟨"a", "b.c", "y", "integer", "", ""⟩]

/-- Counterexample to claim C7 as stated: a database whose rows name N = 2
distinct tables (and no views) for which extraction returns 1 document, not
N + M = 2: the grouping key `f"{schema}.{table}"` identifies the two tables. -/
theorem extraction_count_counterexample :
    num_tables colliding_rows = 2 ∧
    (build_table_docs colliding_rows).length = 1 ∧
    extract_metadata (Except.ok ⟨Except.ok colliding_rows, Except.ok []⟩)
      = Except.ok (build_table_docs colliding_rows) := by
  refine ⟨by decide, by decide, by simp [extract_metadata, build_view_docs]⟩

theorem tables_data_keys (rows : List TableColumnRow) :
    ∀ acc : List (String × TableData),
      (rows.foldl add_table_row acc).map Prod.fst
        = rows.foldl key_step (acc.map Prod.fst) := by
  induction rows with
  | nil => intro acc; rfl
  | cons r t ih =>
    intro acc
    show (t.foldl add_table_row (add_table_row acc r)).map Prod.fst
      = t.foldl key_step (key_step (acc.map Prod.fst) r)
    rw [ih]
    congr 1
    unfold add_table_row key_step
    by_cases hmem : row_key r ∈ acc.map Prod.fst
    · have hany : acc.any (fun p => p.1 == row_key r) = true := by
        rw [List.any_eq_true]
        obtain ⟨p, hp, hfst⟩ := List.mem_map.mp hmem
        exact ⟨p, hp, by rw [hfst]; simp⟩
      rw [if_pos hany, if_pos hmem, List.map_map]
      apply List.map_congr_left
      intro p _
      by_cases hpk : (p.1 == row_key r) = true
      · simp [Function.comp, hpk]
      · simp [Function.comp, hpk]
    · have hany : acc.any (fun p => p.1 == row_key r) = false := by
        rw [Bool.eq_false_iff]
        intro hc
        rw [List.any_eq_true] at hc
        obtain ⟨p, hp, hpk⟩ := hc
        exact hmem (List.mem_map.mpr ⟨p, hp, beq_iff_eq.mp hpk⟩)
      rw [hany, if_neg hmem]
      simp

theorem tables_data_length (rows : List TableColumnRow) :
    (tables_data rows).length = (distinct_keys rows).length := by
  have h := congrArg List.length (tables_data_keys rows [])
  rwa [List.length_map] at h

/-- The grouping key as a function of the `(schema, table)` pair. -/
def kfun (p : String × String) : String := p.1 ++ "." ++ p.2

theorem keys_eq_pairs_map (R : List TableColumnRow)
    (hinj : ∀ r1 ∈ R, ∀ r2 ∈ R, row_key r1 = row_key r2 →
      (r1.table_schema, r1.table_name) = (r2.table_schema, r2.table_name)) :
    ∀ (rows : List TableColumnRow) (ps : List (String × String)),
      (∀ r ∈ rows, r ∈ R) →
      (∀ p ∈ ps, ∃ r, r ∈ R ∧ (r.table_schema, r.table_name) = p) →
      rows.foldl key_step (ps.map kfun) = (rows.foldl pair_step ps).map kfun := by
  intro rows
  induction rows with
  | nil => intro ps _ _; rfl
  | cons r t ih =>
    intro ps hsub hexist
    show t.foldl key_step (key_step (ps.map kfun) r)
      = (t.foldl pair_step (pair_step ps r)).map kfun
    have hkey : row_key r = kfun (r.table_schema, r.table_name) := rfl
    by_cases hmem : (r.table_schema, r.table_name) ∈ ps
    · have hkmem : row_key r ∈ ps.map kfun := by
        rw [hkey]
        exact List.mem_map_of_mem kfun hmem
      rw [key_step, if_pos hkmem, pair_step, if_pos hmem]
      exact ih ps (fun x hx => hsub x (List.mem_cons_of_mem r hx)) hexist
    · have hkmem : row_key r ∉ ps.map kfun := by
        intro hk
        obtain ⟨p, hp, hkp⟩ := List.mem_map.mp hk
        obtain ⟨r2, hr2R, hr2p⟩ := hexist p hp
        have hk2 : row_key r2 = row_key r := by
          rw [show row_key r2 = kfun (r2.table_schema, r2.table_name) from rfl, hr2p, hkp]
        have hpair := hinj r2 hr2R r (hsub r (List.mem_cons_self r t)) hk2
        rw [hr2p] at hpair
        exact hmem (hpair ▸ hp)
      rw [key_step, if_neg hkmem, pair_step, if_neg hmem]
      rw [show (ps.map kfun) ++ [row_key r]
          = (ps ++ [(r.table_schema, r.table_name)]).map kfun by
        rw [List.map_append, hkey]; rfl]
      refine ih (ps ++ [(r.table_schema, r.table_name)])
        (fun x hx => hsub x (List.mem_cons_of_mem r hx)) ?_
      intro p hp
      rcases List.mem_append.mp hp with hold | hnew
      · exact hexist p hold
      · exact ⟨r, hsub r (List.mem_cons_self r t), (List.mem_singleton.mp hnew).symm⟩

theorem distinct_keys_length (rows : List TableColumnRow)
    (hinj : ∀ r1 ∈ rows, ∀ r2 ∈ rows, row_key r1 = row_key r2 →
      (r1.table_schema, r1.table_name) = (r2.table_schema, r2.table_name)) :
    (distinct_keys rows).length = num_tables rows := by
  have h := keys_eq_pairs_map rows hinj rows [] (fun r hr => hr)
    (fun p hp => absurd hp (List.not_mem_nil p))
  unfold distinct_keys num_tables distinct_pairs
  rw [show ([] : List String) = ([] : List (String × String)).map kfun from rfl, h,
    List.length_map]

theorem name_infix_table (t : TableData) :
    t.name.data <:+: (table_doc_content t).data := by
  unfold table_doc_content
  refine strip_keeps_middle _ t.name "Table: ".data
    (" (Schema: " ++ (t.schema ++ table_rest t)).data 'T' '(' ?_ (by decide) (by decide)
    ?_ (by decide)
  · rw [str_data_append, str_data_append]
  · rw [str_data_append]
    exact List.mem_append_left _ (by decide)

theorem schema_infix_table (t : TableData) :
    t.schema.data <:+: (table_doc_content t).data := by
  unfold table_doc_content
  refine strip_keeps_middle _ t.schema
    ("Table: ".data ++ (t.name.data ++ " (Schema: ".data)) (table_rest t).data
    'T' ')' ?_ (List.mem_append_left _ (by decide)) (by decide) ?_ (by decide)
  · simp [str_data_append]
  · unfold table_rest
    rw [str_data_append]
    exact List.mem_append_left _ (by decide)

theorem name_infix_view (r : ViewRow) :
    r.view_name.data <:+: (view_doc_content r).data := by
  unfold view_doc_content
  refine strip_keeps_middle _ r.view_name "View: ".data
    (" (Schema: " ++ (r.view_schema ++ view_rest r)).data 'V' '(' ?_ (by decide)
    (by decide) ?_ (by decide)
  · rw [str_data_append, str_data_append]
  · rw [str_data_append]
    exact List.mem_append_left _ (by decide)

theorem schema_infix_view (r : ViewRow) :
    r.view_schema.data <:+: (view_doc_content r).data := by
  unfold view_doc_content
  refine strip_keeps_middle _ r.view_schema
    ("View: ".data ++ (r.view_name.data ++ " (Schema: ".data)) (view_rest r).data
    'V' ')' ?_ (List.mem_append_left _ (by decide)) (by decide) ?_ (by decide)
  · simp [str_data_append]
  · unfold view_rest
    rw [str_data_append]
    exact List.mem_append_left _ (by decide)

theorem table_docs_contain (rows : List TableColumnRow) :
    ∀ d ∈ build_table_docs rows,
      ∃ n s2, d.object_name = some n ∧ d.schema_name = some s2 ∧
        n.data <:+: d.page_content.data ∧ s2.data <:+: d.page_content.data := by
  intro d hd
  obtain ⟨p, _, hpd⟩ := List.mem_map.mp hd
  rw [← hpd]
  exact ⟨p.2.name, p.2.schema, rfl, rfl, name_infix_table p.2, schema_infix_table p.2⟩

theorem view_docs_contain (vrows : List ViewRow) :
    ∀ d ∈ build_view_docs vrows,
      ∃ n s2, d.object_name = some n ∧ d.schema_name = some s2 ∧
        n.data <:+: d.page_content.data ∧ s2.data <:+: d.page_content.data := by
  intro d hd
  obtain ⟨r, _, hrd⟩ := List.mem_map.mp hd
  rw [← hrd]
  exact ⟨r.view_name, r.view_schema, rfl, rfl, name_infix_view r, schema_infix_view r⟩

/-- Claim C7 amended: rows are grouped by the concatenated string key
`f"{schema}.{table}"`, so extraction returns exactly N + M documents (one per
table, one per view, each containing its object's name and schema in the
content and metadata) PROVIDED distinct `(schema, table)` pairs have distinct
concatenated keys — e.g. whenever schema names contain no dot; tables whose
keys collide are merged into one document. -/
theorem extraction_count_amended (rows : List TableColumnRow) (vrows : List ViewRow)
    (hinj : ∀ r1 ∈ rows, ∀ r2 ∈ rows, row_key r1 = row_key r2 →
      (r1.table_schema, r1.table_name) = (r2.table_schema, r2.table_name)) :
    extract_metadata (Except.ok ⟨Except.ok rows, Except.ok vrows⟩)
      = Except.ok (build_table_docs rows ++ build_view_docs vrows) ∧
    (build_table_docs rows ++ build_view_docs vrows).length
      = num_tables rows + vrows.length ∧
    (∀ d ∈ build_table_docs rows ++ build_view_docs vrows,
      ∃ n s2, d.object_name = some n ∧ d.schema_name = some s2 ∧
        n.data <:+: d.page_content.data ∧ s2.data <:+: d.page_content.data) := by
  refine ⟨rfl, ?_, ?_⟩
  · have h1 : (build_table_docs rows).length = num_tables rows := by
      unfold build_table_docs
      rw [List.length_map, tables_data_length rows, distinct_keys_length rows hinj]
    have h2 : (build_view_docs vrows).length = vrows.length := by
      unfold build_view_docs
      rw [List.length_map]
    rw [List.length_append, h1, h2]
  · intro d hd
    rcases List.mem_append.mp hd with h | h
    · exact table_docs_contain rows d h
    · exact view_docs_contain vrows d h

/-- A one-table, one-view database with collision-free names. -/
def simple_rows : List TableColumnRow :=
  [⟨"public", "users", "id", "integer", "", ""⟩]

/-- The accompanying single view row. -/
def simple_views : List ViewRow := [⟨"public", "v_users", "SELECT 1", ""⟩]

/-- Witness for C7 amended: N + M = 2 documents on a concrete
collision-free database. -/
theorem extraction_count_amended_app :
    (build_table_docs simple_rows ++ build_view_docs simple_views).length
      = num_tables simple_rows + simple_views.length :=
  (extraction_count_amended simple_rows simple_views (by decide)).2.1

end Rag
